import Mathlib

/-!
Verification of the key-resolution cache and background download pipeline of
`audio_file_manager.cpp`.

Shallow embedding conventions:
* C strings are modelled as `List Char` (NUL-free ASCII text); `strcmp` equality
  is list equality, `strncpy` into a field of `n + 1` bytes is `List.take n`,
  and `snprintf` into a buffer of `n + 1` bytes is `List.take n` of the
  composed text.
* The 32-bit `unsigned long` arithmetic of the device clock is `Nat` with an
  explicit `% 2^32`.
* The external collaborators (WiFi, SD card, HTTP, the JSON codec) are an
  explicit environment record `Env`; the functions of the module are pure
  functions of the environment and of the module state they read and write.
* The global state of the module is split per function into the pieces it
  touches: the download queue (`QueueState`, i.e. `downloadQueue` +
  `downloadQueueCount` + `downloadQueueIndex`, the first `count` array slots
  being the list) and the registry (`List AudioFile`, i.e. `knownFiles` +
  `knownSequenceCount`).
-/

-- ============================================================================
-- Configuration constants (audio_file_manager.h)
-- ============================================================================

def MAX_KNOWN_SEQUENCES : Nat := 50

def MAX_DOWNLOAD_QUEUE : Nat := 20

def MAX_FILENAME_LENGTH : Nat := 64

def MAX_HTTP_RESPONSE_SIZE : Nat := 8192

def CACHE_VALIDITY_HOURS : Nat := 24 * 7

def DOWNLOAD_QUEUE_CHECK_INTERVAL_MS : Nat := 1000

def AUDIO_FILES_DIR : List Char := "/audio".data

/-- Modulus of the device's 32-bit millisecond clock (`unsigned long`). -/
def CLOCK_MOD : Nat := 4294967296

-- ============================================================================
-- Data model (structs of audio_file_manager.cpp / .h)
-- ============================================================================

/-- `struct AudioFile` of `audio_file_manager.h`: one registry record. -/
structure AudioFile where
  audioKey : List Char
  description : List Char
  type : List Char
  path : List Char
deriving DecidableEq, Repr

/-- `struct AudioDownloadItem` of `audio_file_manager.cpp`: one queued fetch.
The `url` field is 256 bytes in the source, so at most 255 characters are
stored; `description` is 64 bytes (63 characters); `localPath` 128 bytes. -/
structure AudioDownloadItem where
  url : List Char
  localPath : List Char
  description : List Char
  inProgress : Bool
deriving DecidableEq, Repr

/-- The download-queue globals: `downloadQueue[0 .. downloadQueueCount)` as a
list, plus the processing cursor `downloadQueueIndex`. -/
structure QueueState where
  items : List AudioDownloadItem
  index : Nat
deriving DecidableEq, Repr

/-- The external world as seen by the module: connectivity, SD card, the HTTP
transfer, the opaque JSON codec, and the parsed staleness mark.
`markValue` is the integer parsed (`String::toInt`) from
`CACHE_TIMESTAMP_FILE`; `none` means the file could not be opened. -/
structure Env where
  wifiConnected : Bool
  sdOk : Bool
  sdExists : List Char → Bool
  dirCreateOk : Bool
  fileOpenOk : Bool
  httpCode : Int
  payload : List Char
  parseJson : List Char → Option (List AudioFile)
  audioJsonExists : Bool
  audioJsonContent : Option (List Char)
  markValue : Option Nat
  now : Nat

-- ============================================================================
-- Locator codec (urlToFilename / getLocalAudioPath, lines 91-191)
-- ============================================================================

/-- C `isalnum` on ASCII input. -/
def isAlnumAscii (c : Char) : Bool :=
  (48 ≤ c.toNat && c.toNat ≤ 57) || (65 ≤ c.toNat && c.toNat ≤ 90) ||
    (97 ≤ c.toNat && c.toNat ≤ 122)

/-- The segment after the last `/` (C `strrchr(url, '/') + 1`), or the whole
string when there is no slash. -/
def afterLastSlash (s : List Char) : List Char :=
  (s.reverse.takeWhile (fun c => c != '/')).reverse

/-- The sanitizing copy loop of `urlToFilename` (lines 106-121): keep
alphanumerics and `.`/`-`/`_`, map space to `_`, drop everything else; stop
once `fuel` characters (`MAX_FILENAME_LENGTH - 1` in the source) have been
written. A dropped character does not consume fuel, as in the C loop where
only writes advance `j`. -/
def sanitizeChars : List Char → Nat → List Char
  | [], _ => []
  | _ :: _, 0 => []
  | c :: cs, fuel + 1 =>
    if isAlnumAscii c || c == '.' || c == '-' || c == '_' then
      c :: sanitizeChars cs fuel
    else if c == ' ' then
      '_' :: sanitizeChars cs fuel
    else
      sanitizeChars cs (fuel + 1)

/-- DJB2 rolling hash of lines 130-134, in 32-bit `unsigned long`
arithmetic. -/
def djb2 (s : List Char) : Nat :=
  s.foldl (fun h c => (h * 33 + c.toNat) % CLOCK_MOD) 5381

/-- Lowercase hexadecimal digit. -/
def hexChar (n : Nat) : Char :=
  if n < 10 then Char.ofNat (48 + n) else Char.ofNat (87 + n)

/-- `%08lx` formatting of a 32-bit value: eight lowercase hex digits. -/
def toHex8 (n : Nat) : List Char :=
  [hexChar (n / 16 ^ 7 % 16), hexChar (n / 16 ^ 6 % 16), hexChar (n / 16 ^ 5 % 16),
   hexChar (n / 16 ^ 4 % 16), hexChar (n / 16 ^ 3 % 16), hexChar (n / 16 ^ 2 % 16),
   hexChar (n / 16 % 16), hexChar (n % 16)]

/-- Decimal digits of a natural number (`%d` for the collision counter). -/
def decDigits : Nat → Nat → List Char
  | 0, _ => []
  | fuel + 1, n =>
    if n < 10 then [Char.ofNat (48 + n)]
    else decDigits fuel (n / 10) ++ [Char.ofNat (48 + n % 10)]

/-- Decimal rendering of a counter (enough fuel for any queue-sized value). -/
def natDecimal (n : Nat) : List Char := decDigits 10 n

/-- `snprintf(filename, MAX_FILENAME_LENGTH, "audio_%08lx.mp3", hash)`. -/
def hashBaseName (h : Nat) : List Char :=
  (("audio_".data ++ toHex8 h) ++ ".mp3".data).take (MAX_FILENAME_LENGTH - 1)

/-- `snprintf(filename, MAX_FILENAME_LENGTH, "audio_%08lx_%d.mp3", hash, c)`. -/
def collisionName (h c : Nat) : List Char :=
  (("audio_".data ++ toHex8 h) ++ '_' :: (natDecimal c ++ ".mp3".data)).take
    (MAX_FILENAME_LENGTH - 1)

/-- `urlToFilename` (lines 91-168). If the final path segment is nonempty,
contains a `.` and sanitizes to something nonempty, that sanitized name is
used. Otherwise a DJB2-hash name is synthesized; if the SD card is up and the
base hash name is taken, counters 1..999 are tried and the first free one is
used, falling back to the base name when all collide (and also when the SD
card is unavailable). The C function returns `false` only on NULL pointers,
which have no counterpart here, so the result is always `some`. -/
def urlToFilename (env : Env) (url : List Char) : Option (List Char) :=
  let seg := afterLastSlash url
  let cleaned := sanitizeChars seg (MAX_FILENAME_LENGTH - 1)
  if seg.length > 0 && seg.contains '.' && cleaned.length > 0 then
    some cleaned
  else
    let h := djb2 url
    let base := hashBaseName h
    if env.sdOk && env.sdExists (AUDIO_FILES_DIR ++ '/' :: base) then
      match (List.range' 1 999).find?
          (fun c => !env.sdExists (AUDIO_FILES_DIR ++ '/' :: collisionName h c)) with
      | some c => some (collisionName h c)
      | none => some base
    else
      some base

/-- `getLocalAudioPath` (lines 176-191):
`snprintf(localPath, 128, "%s/%s", AUDIO_FILES_DIR, filename)`. -/
def getLocalAudioPath (env : Env) (url : List Char) : Option (List Char) :=
  match urlToFilename env url with
  | none => none
  | some f => some ((AUDIO_FILES_DIR ++ '/' :: f).take 127)

/-- `audioFileExists` (lines 198-212). -/
def audioFileExists (env : Env) (url : List Char) : Bool :=
  if !env.sdOk then false
  else
    match getLocalAudioPath env url with
    | none => false
    | some p => env.sdExists p

-- ============================================================================
-- Download queue (lines 220-373, 945-1005)
-- ============================================================================

/-- `addToDownloadQueue` (lines 220-257): capacity check first, then the
duplicate scan over all `downloadQueueCount` slots (processed ones included),
then the slot is filled (`strncpy` truncation on `url` and `description`) and
the count incremented. Returns the C `bool` and the new queue state. -/
def addToDownloadQueue (env : Env) (q : QueueState) (url description : List Char) :
    Bool × QueueState :=
  if q.items.length ≥ MAX_DOWNLOAD_QUEUE then
    (false, q)
  else if q.items.any (fun it => it.url == url) then
    (true, q)
  else
    match getLocalAudioPath env url with
    | none => (false, q)
    | some lp =>
      (true, ⟨q.items ++ [⟨url.take 255, lp, description.take 63, false⟩], q.index⟩)

/-- `processDownloadQueue` (lines 263-373). Guards in source order: cursor at
end, WiFi down, SD card down, item already `inProgress` — each a no-op
returning `false` with the state untouched. Otherwise the item is attempted:
the audio directory is ensured (a failed `mkdir` advances the cursor and
returns `false`), the GET is issued, and on status 200 the destination file is
opened and streamed. The cursor advances and `inProgress` is cleared on every
attempted path; the return value is `httpCode == 200` (with the file-creation
failure path returning `false`). -/
def processDownloadQueue (env : Env) (q : QueueState) : Bool × QueueState :=
  if q.index ≥ q.items.length then
    (false, q)
  else if !env.wifiConnected then
    (false, q)
  else if !env.sdOk then
    (false, q)
  else
    match q.items[q.index]? with
    | none => (false, q)
    | some item =>
      if item.inProgress then
        (false, q)
      else
        let advanced : QueueState := ⟨q.items, q.index + 1⟩
        if !env.sdExists AUDIO_FILES_DIR && !env.dirCreateOk then
          (false, advanced)
        else if env.httpCode == 200 then
          if !env.fileOpenOk then (false, advanced) else (true, advanced)
        else
          (false, advanced)

/-- `processAudioDownloadQueue` (lines 945-957): rate-limited wrapper, with
`millis() - lastDownloadCheck` in wrapping 32-bit arithmetic. Returns the
result, the new `lastDownloadCheck`, and the new queue state. -/
def processAudioDownloadQueue (env : Env) (lastCheck : Nat) (q : QueueState) :
    Bool × Nat × QueueState :=
  let now := env.now % CLOCK_MOD
  if (now + CLOCK_MOD - lastCheck % CLOCK_MOD) % CLOCK_MOD <
      DOWNLOAD_QUEUE_CHECK_INTERVAL_MS then
    (false, lastCheck, q)
  else
    let r := processDownloadQueue env q
    (r.1, now, r.2)

/-- `getDownloadQueueCount` (lines 959-962). -/
def getDownloadQueueCount (q : QueueState) : Nat := q.items.length - q.index

/-- `getTotalDownloadQueueSize` (lines 964-967). -/
def getTotalDownloadQueueSize (q : QueueState) : Nat := q.items.length

/-- `clearDownloadQueue` (lines 994-1000): both counters reset to zero. -/
def clearDownloadQueue : QueueState := ⟨[], 0⟩

/-- `isDownloadQueueEmpty` (lines 1002-1005). -/
def isDownloadQueueEmpty (q : QueueState) : Bool := q.index ≥ q.items.length

-- ============================================================================
-- Staleness check (isCacheStale, lines 379-420)
-- ============================================================================

/-- `CACHE_VALIDITY_HOURS * 60 * 60 * 1000UL`. -/
def CACHE_MAX_AGE_MS : Nat := CACHE_VALIDITY_HOURS * 60 * 60 * 1000

/-- The rollover-aware age computation of lines 407-417. -/
def cacheAge (currentTime savedTime : Nat) : Nat :=
  if currentTime ≥ savedTime then currentTime - savedTime
  else (4294967295 - savedTime) + currentTime + 1

/-- `isCacheStale` (lines 379-420): an empty registry is stale; without an SD
card the cache is assumed valid; a missing timestamp file means stale;
otherwise the wrapping-clock age is compared against the validity window. -/
def isCacheStale (env : Env) (reg : List AudioFile) : Bool :=
  if reg.length = 0 then true
  else if !env.sdOk then false
  else
    match env.markValue with
    | none => true
    | some saved =>
      decide (CACHE_MAX_AGE_MS < cacheAge (env.now % CLOCK_MOD) (saved % CLOCK_MOD))

-- ============================================================================
-- Registry store and refresh (lines 489-575, 608-713)
-- ============================================================================

/-- `loadKnownSequencesFromSDCard` (lines 489-575), as a function of the
previous in-memory registry. Failure paths (no SD, no file, open failure,
empty file, parse error) all return `false` and leave the registry as it was;
on success the parsed records replace it, capped at `MAX_KNOWN_SEQUENCES`. -/
def loadKnownSequencesFromSDCard (env : Env) (reg : List AudioFile) :
    Bool × List AudioFile :=
  if !env.sdOk then (false, reg)
  else if !env.audioJsonExists then (false, reg)
  else
    match env.audioJsonContent with
    | none => (false, reg)
    | some content =>
      if content.length = 0 then (false, reg)
      else
        match env.parseJson content with
        | none => (false, reg)
        | some records => (true, records.take MAX_KNOWN_SEQUENCES)

/-- `downloadAudio` (lines 608-713), returning the C `bool`, the new in-memory
registry, and the number of network requests issued during the call. The
existing registry is cleared only after a successful parse; oversized bodies
and parse errors fail with the registry retained. The trailing
`saveKnownSequencesToSDCard` cannot change the returned value. -/
def downloadAudio (env : Env) (reg : List AudioFile) :
    Bool × List AudioFile × Nat :=
  if !env.wifiConnected then (false, reg, 0)
  else if !isCacheStale env reg then (true, reg, 0)
  else if env.httpCode != 200 then (false, reg, 1)
  else if env.payload.length > MAX_HTTP_RESPONSE_SIZE then (false, reg, 1)
  else
    match env.parseJson env.payload with
    | none => (false, reg, 1)
    | some records => (true, records.take MAX_KNOWN_SEQUENCES, 1)

-- ============================================================================
-- Cache resolver (hasAudioKey / processAudioKey, lines 715-851)
-- ============================================================================

/-- `hasAudioKey` (lines 715-731). -/
def hasAudioKey (reg : List AudioFile) (sequence : List Char) : Bool :=
  reg.any (fun f => f.audioKey == sequence)

/-- Byte-for-byte prefix test (`strncmp(s, p, strlen p) == 0`). -/
def beginsWith : List Char → List Char → Bool
  | _, [] => true
  | [], _ :: _ => false
  | c :: cs, p :: ps => c == p && beginsWith cs ps

/-- `processAudioKey` (lines 733-851). Result: the returned `const char*`
(`none` = NULL) together with the possibly grown download queue. Lookup is the
first match; only `"audio"` records can yield a path; remote (`http://` /
`https://`) locators are served from the local cache when present and enqueued
otherwise; non-remote locators are returned directly; `"service"`,
`"shortcut"`, `"url"` and unknown types all return NULL without queueing. -/
def processAudioKey (env : Env) (reg : List AudioFile) (q : QueueState)
    (sequence : List Char) : Option (List Char) × QueueState :=
  match reg.find? (fun f => f.audioKey == sequence) with
  | none => (none, q)
  | some found =>
    if found.type == "audio".data then
      if found.path.length = 0 then (none, q)
      else if beginsWith found.path "http://".data ||
          beginsWith found.path "https://".data then
        if audioFileExists env found.path then
          match getLocalAudioPath env found.path with
          | some lp => (some lp, q)
          | none => (none, q)
        else
          (none, (addToDownloadQueue env q found.path found.description).2)
      else
        (some found.path, q)
    else
      (none, q)

-- ============================================================================
-- Concrete fixtures used by witnesses and counterexamples
-- ============================================================================

/-- A fully permissive environment: connectivity and storage up, every HTTP
request answered 200, no file present on the card, parsing always failing
(the codec is irrelevant to most scenarios), a zero-age staleness mark. -/
def envTrue : Env :=
  { wifiConnected := true, sdOk := true, sdExists := fun _ => false,
    dirCreateOk := true, fileOpenOk := true, httpCode := 200, payload := [],
    parseJson := fun _ => none, audioJsonExists := true, audioJsonContent := none,
    markValue := some 0, now := 0 }

/-- A single-record registry with a local (non-remote) audio locator. -/
def fileA : AudioFile := ⟨"1".data, "d".data, "audio".data, "/a.mp3".data⟩

/-- One pending download item. -/
def itemU : AudioDownloadItem := ⟨['u'], "/audio/u".data, [], false⟩

/-- Queue holding `itemU` with the cursor on it. -/
def qOne : QueueState := ⟨[itemU], 0⟩

/-- Environment where the audio directory exists but the GET answers 404. -/
def envHttp404 : Env :=
  { envTrue with httpCode := 404, sdExists := fun p => p == AUDIO_FILES_DIR }

/-- Environment where the audio directory exists and the GET answers 200. -/
def envOk200 : Env := { envTrue with sdExists := fun p => p == AUDIO_FILES_DIR }

/-- Distinctly named queue items for the capacity fixtures. -/
def mkQueueItem (n : Nat) : AudioDownloadItem :=
  ⟨'u' :: natDecimal n, "/audio/u".data, [], false⟩

/-- A queue at the configured capacity. -/
def fullQueue : QueueState := ⟨(List.range MAX_DOWNLOAD_QUEUE).map mkQueueItem, 0⟩

/-- Environment without an SD card and with no staleness mark. -/
def envNoSd : Env := { envTrue with sdOk := false, markValue := none }

/-- A remote locator whose final segment is 74 characters long. -/
def urlLongName : List Char :=
  "https://x/".data ++ List.replicate 70 'a' ++ ".mp3".data

/-- Registry entry whose remote locator has no extension-bearing filename, so
its local name is hash-derived. -/
def regHash : List AudioFile :=
  [⟨"123".data, "d".data, "audio".data, "https://x/audio".data⟩]

/-- The hash-derived destination computed for `"https://x/audio"`. -/
def destHash : List Char := "/audio/audio_48d24969.mp3".data

/-- Environment in which exactly the file `destHash` exists on the card. -/
def envHashHit : Env := { envTrue with sdExists := fun p => p == destHash }

/-- The queue state after the first (uncached) resolve of `"123"`. -/
def qHash : QueueState := ⟨[⟨"https://x/audio".data, destHash, "d".data, false⟩], 0⟩

/-- Registry entry with an extension-bearing remote locator. -/
def regS : List AudioFile :=
  [⟨"123".data, "dd".data, "audio".data, "https://x/a.mp3".data⟩]

/-- The sanitized destination computed for `"https://x/a.mp3"`. -/
def destS : List Char := "/audio/a.mp3".data

/-- Environment in which exactly the file `destS` exists on the card. -/
def envHitS : Env := { envTrue with sdExists := fun p => p == destS }

/-- A locator one character past the queue's 255-character `url` field. -/
def urlLongA : List Char := List.replicate 256 'a'

/-- A distinct locator sharing the first 255 characters with `urlLongA`. -/
def urlLongB : List Char := List.replicate 255 'a' ++ ['b']

/-- The queue after enqueuing `urlLongA` and then `urlLongB`. -/
def qTrunc : QueueState :=
  (addToDownloadQueue envTrue
    (addToDownloadQueue envTrue ⟨[], 0⟩ urlLongA ['d']).2 urlLongB ['d']).2

/-- Environment whose disk registry file holds unparseable text and whose
network payload is likewise unparseable (`parseJson` is constantly `none`). -/
def envParseFail : Env :=
  { envTrue with markValue := none, audioJsonContent := some ['x'] }

-- ============================================================================
-- Helper lemmas
-- ============================================================================

theorem sanitizeChars_length (s : List Char) : ∀ fuel, (sanitizeChars s fuel).length ≤ fuel := by
  induction s with
  | nil => intro fuel; simp [sanitizeChars]
  | cons c cs ih =>
    intro fuel
    cases fuel with
    | zero => simp [sanitizeChars]
    | succ n =>
      simp only [sanitizeChars]
      split_ifs with h1 h2
      · simpa using Nat.succ_le_succ (ih n)
      · simpa using Nat.succ_le_succ (ih n)
      · exact ih (n + 1)

theorem urlToFilename_some_short (env : Env) (url : List Char) :
    ∃ f, urlToFilename env url = some f ∧ f.length ≤ MAX_FILENAME_LENGTH - 1 := by
  unfold urlToFilename
  dsimp only
  split_ifs with h1 h2
  · exact ⟨_, rfl, sanitizeChars_length _ _⟩
  · cases hf : (List.range' 1 999).find?
        (fun c => !env.sdExists (AUDIO_FILES_DIR ++ '/' :: collisionName (djb2 url) c)) with
    | none =>
      refine ⟨_, rfl, ?_⟩
      simp [hashBaseName, List.length_take_le]
    | some c =>
      refine ⟨_, rfl, ?_⟩
      simp [collisionName, List.length_take_le]
  · refine ⟨_, rfl, ?_⟩
    simp [hashBaseName, List.length_take_le]

theorem urlToFilename_sanitized (env : Env) (url : List Char)
    (hdot : (afterLastSlash url).contains '.' = true)
    (hclean : sanitizeChars (afterLastSlash url) (MAX_FILENAME_LENGTH - 1) ≠ []) :
    urlToFilename env url =
      some (sanitizeChars (afterLastSlash url) (MAX_FILENAME_LENGTH - 1)) := by
  have hne : afterLastSlash url ≠ [] := by
    intro h; rw [h] at hdot; simp [List.contains] at hdot
  have hmem : '.' ∈ afterLastSlash url := by simpa using hdot
  unfold urlToFilename
  have h1 : 0 < (afterLastSlash url).length := List.length_pos.mpr hne
  have h2 : 0 < (sanitizeChars (afterLastSlash url) (MAX_FILENAME_LENGTH - 1)).length :=
    List.length_pos.mpr hclean
  simp [h1, h2, hmem]

theorem getLocalAudioPath_sanitized (env : Env) (url : List Char)
    (hdot : (afterLastSlash url).contains '.' = true)
    (hclean : sanitizeChars (afterLastSlash url) (MAX_FILENAME_LENGTH - 1) ≠ []) :
    getLocalAudioPath env url =
      some (AUDIO_FILES_DIR ++ '/' ::
        sanitizeChars (afterLastSlash url) (MAX_FILENAME_LENGTH - 1)) := by
  unfold getLocalAudioPath
  rw [urlToFilename_sanitized env url hdot hclean]
  have hlen : (AUDIO_FILES_DIR ++ '/' ::
      sanitizeChars (afterLastSlash url) (MAX_FILENAME_LENGTH - 1)).length ≤ 127 := by
    have hs := sanitizeChars_length (afterLastSlash url) (MAX_FILENAME_LENGTH - 1)
    have hM : MAX_FILENAME_LENGTH = 64 := rfl
    simp only [List.length_append, List.length_cons]
    have hdir : AUDIO_FILES_DIR.length = 6 := by decide
    omega
  dsimp only
  rw [List.take_of_length_le hlen]

theorem beginsWith_ne_nil (s p : List Char) (hp : p ≠ [])
    (h : beginsWith s p = true) : s ≠ [] := by
  intro hs
  subst hs
  cases p with
  | nil => exact hp rfl
  | cons c cs => simp [beginsWith] at h

-- ============================================================================
-- Claim theorems
-- ============================================================================

/-- C6: the cache-age computation is wraparound-safe over the fixed 32-bit
clock: when the current reading is numerically below the stored mark the age
is `(MAX_CLOCK - mark) + current + 1`, otherwise `current - mark`, and in both
cases this equals the true elapsed time modulo the clock width. -/
theorem cacheAge_wraparound_safe (currentTime savedTime : Nat)
    (hc : currentTime < CLOCK_MOD) (hs : savedTime < CLOCK_MOD) :
    cacheAge currentTime savedTime =
      (if currentTime < savedTime then (4294967295 - savedTime) + currentTime + 1
       else currentTime - savedTime) ∧
    cacheAge currentTime savedTime =
      (CLOCK_MOD + currentTime - savedTime) % CLOCK_MOD := by
  have hc' : currentTime < 4294967296 := hc
  have hs' : savedTime < 4294967296 := hs
  constructor
  · unfold cacheAge
    split_ifs <;> omega
  · unfold cacheAge CLOCK_MOD
    split_ifs <;> omega

/-- C6 witness: with the mark ten ticks before wraparound and the clock
re-reading 5 after the wrap, the computed age is 15. -/
theorem cacheAge_wraparound_safe_witness : cacheAge 5 (CLOCK_MOD - 10) = 15 := by
  have h := (cacheAge_wraparound_safe 5 (CLOCK_MOD - 10)
    (by norm_num [CLOCK_MOD]) (by norm_num [CLOCK_MOD])).1
  rw [h]
  norm_num [CLOCK_MOD]

/-- C7: when the connectivity gate of the refresh has passed and the cache is
not stale, `downloadAudio` succeeds trivially: it returns `true`, leaves the
registry unchanged, and performs zero network requests. -/
theorem downloadAudio_fresh_cache_no_network (env : Env) (reg : List AudioFile)
    (hw : env.wifiConnected = true) (hs : isCacheStale env reg = false) :
    downloadAudio env reg = (true, reg, 0) := by
  unfold downloadAudio
  simp [hw, hs]

/-- C7 witness: a nonempty registry with a zero-age staleness mark, under
connectivity; the refresh returns success with zero network calls. -/
theorem downloadAudio_fresh_cache_no_network_witness :
    downloadAudio envTrue [fileA] = (true, [fileA], 0) :=
  downloadAudio_fresh_cache_no_network envTrue [fileA] rfl (by decide)

/-- C8: enqueuing into a queue already holding `MAX_DOWNLOAD_QUEUE` items
reports failure and changes nothing: the overflow item is dropped and the
entries and cursor are exactly as before, so the queue stays at capacity. -/
theorem addToDownloadQueue_capacity_ceiling (env : Env) (q : QueueState)
    (url d : List Char) (hfull : MAX_DOWNLOAD_QUEUE ≤ q.items.length) :
    addToDownloadQueue env q url d = (false, q) := by
  unfold addToDownloadQueue
  simp [hfull]

/-- C8 witness: a concrete queue of 20 items rejects a new locator and is left
untouched at capacity. -/
theorem addToDownloadQueue_capacity_ceiling_witness :
    fullQueue.items.length = MAX_DOWNLOAD_QUEUE ∧
    addToDownloadQueue envTrue fullQueue "x".data [] = (false, fullQueue) :=
  ⟨by decide, addToDownloadQueue_capacity_ceiling envTrue fullQueue "x".data [] (by decide)⟩

/-- C3 counterexample: the capacity check precedes the duplicate check, so
enqueuing a locator that is already present in a *full* queue reports failure,
not success — refuting the claim for that queue state. -/
theorem addToDownloadQueue_full_duplicate_fails :
    (∃ it ∈ fullQueue.items, it.url = 'u' :: natDecimal 0) ∧
    addToDownloadQueue envTrue fullQueue ('u' :: natDecimal 0) [] =
      (false, fullQueue) := by
  decide

/-- C3 (amended): below capacity, enqueue is idempotent — when the locator is
already present anywhere in the queue, `addToDownloadQueue` returns success
and adds nothing, so enqueuing the same locator twice yields one entry. -/
theorem addToDownloadQueue_idempotent (env : Env) (q : QueueState)
    (url d : List Char) (hroom : q.items.length < MAX_DOWNLOAD_QUEUE)
    (hmem : ∃ it ∈ q.items, it.url = url) :
    addToDownloadQueue env q url d = (true, q) := by
  unfold addToDownloadQueue
  have hno : ¬ MAX_DOWNLOAD_QUEUE ≤ q.items.length := by omega
  have hany : q.items.any (fun it => it.url == url) = true := by
    rcases hmem with ⟨it, hin, hurl⟩
    exact List.any_eq_true.mpr ⟨it, hin, by simp [hurl]⟩
  simp [hno, hany]

/-- C3 witness: a one-item queue re-enqueues its own locator as a no-op
success. -/
theorem addToDownloadQueue_idempotent_witness :
    addToDownloadQueue envTrue qOne ['u'] [] = (true, qOne) :=
  addToDownloadQueue_idempotent envTrue qOne ['u'] [] (by decide)
    ⟨itemU, by decide, by decide⟩

/-- C4 counterexample: with the registry nonempty and the SD card unavailable
the staleness mark cannot be read, yet `isCacheStale` reports *not stale* —
refuting the part of the claim that an absent/unreadable mark implies stale. -/
theorem isCacheStale_no_sd_not_stale :
    envNoSd.markValue = none ∧ envNoSd.sdOk = false ∧
    isCacheStale envNoSd [fileA] = false := by
  decide

/-- C4 (amended): `isCacheStale` reports stale exactly when the registry is
empty, or when storage is accessible and either no staleness mark can be read
or the wraparound-safe age exceeds the validity window; when storage is
unavailable (and the registry nonempty) the cache is assumed valid. -/
theorem isCacheStale_spec (env : Env) (reg : List AudioFile) :
    isCacheStale env reg = true ↔
      reg = [] ∨ (env.sdOk = true ∧ (env.markValue = none ∨
        ∃ v, env.markValue = some v ∧
          CACHE_MAX_AGE_MS < cacheAge (env.now % CLOCK_MOD) (v % CLOCK_MOD))) := by
  unfold isCacheStale
  rcases reg with _ | ⟨r, rs⟩
  · simp
  · cases hsd : env.sdOk
    · simp [hsd]
    · cases hmk : env.markValue with
      | none => simp [hsd, hmk]
      | some v => simp [hsd, hmk]

/-- C1 counterexample: WiFi and storage are up, the audio directory exists,
and the pending item at the cursor is attempted — the cursor advances, i.e.
the item *was* processed — yet the drive step returns `false` because the GET
answered 404. This refutes the claim that `true` is returned regardless of
download success or failure. -/
theorem processDownloadQueue_failed_attempt_returns_false :
    (processDownloadQueue envHttp404 qOne).2.index = qOne.index + 1 ∧
    (processDownloadQueue envHttp404 qOne).1 = false := by
  decide

/-- C1 (amended): the drive step returns `false` with the state untouched
whenever nothing is attempted (cursor at end, network down, storage down, or
the cursor item already in progress); when an item is attempted the cursor
always advances with the entries unchanged, and the return value is `true`
exactly when the download succeeded — the audio directory existed or was
created, the GET answered 200, and the destination file could be opened. -/
theorem processDownloadQueue_spec (env : Env) (q : QueueState) :
    ((q.items.length ≤ q.index ∨ env.wifiConnected = false ∨ env.sdOk = false ∨
        (∃ item, q.items[q.index]? = some item ∧ item.inProgress = true)) →
      processDownloadQueue env q = (false, q)) ∧
    (∀ item, q.items[q.index]? = some item → env.wifiConnected = true →
      env.sdOk = true → item.inProgress = false →
      processDownloadQueue env q =
        ((env.sdExists AUDIO_FILES_DIR || env.dirCreateOk) &&
          (env.httpCode == 200) && env.fileOpenOk, ⟨q.items, q.index + 1⟩)) := by
  constructor
  · rintro (h | h | h | ⟨item, hget, hip⟩)
    · unfold processDownloadQueue
      rw [if_pos h]
    · unfold processDownloadQueue
      split_ifs with h1 <;> simp_all
    · unfold processDownloadQueue
      split_ifs with h1 h2 <;> simp_all
    · have hlt : ¬ q.items.length ≤ q.index := by
        have := (List.getElem?_eq_some.mp hget).1
        omega
      unfold processDownloadQueue
      rw [if_neg (by omega : ¬ q.index ≥ q.items.length)]
      split_ifs with h1 h2 <;> simp_all
  · intro item hget hw hsd hip
    have hlt : q.index < q.items.length := (List.getElem?_eq_some.mp hget).1
    unfold processDownloadQueue
    rw [if_neg (by omega : ¬ q.index ≥ q.items.length), hw, hsd, hget]
    simp only [Bool.not_true, Bool.false_eq_true, if_false, hip]
    cases hse : env.sdExists AUDIO_FILES_DIR <;>
      cases hdc : env.dirCreateOk <;>
        cases hhc : env.httpCode == 200 <;>
          cases hfo : env.fileOpenOk <;>
            simp [hse, hdc, hhc, hfo]

/-- C1 witness: a pending item in a healthy environment is attempted, the
cursor advances, and the step reports `true`. -/
theorem processDownloadQueue_spec_witness :
    processDownloadQueue envOk200 qOne = (true, ⟨qOne.items, 1⟩) := by
  rw [(processDownloadQueue_spec envOk200 qOne).2 itemU rfl rfl rfl rfl]
  decide

/-- C9: on a parse error of the structured text — read either from the
persisted registry file (`loadKnownSequencesFromSDCard`) or from the network
response (`downloadAudio`) — the operation reports failure and the previous
in-memory registry is retained unchanged. -/
theorem registry_retained_on_parse_error (env : Env) (reg : List AudioFile) :
    ((env.sdOk = true) → (env.audioJsonExists = true) →
      ∀ content, env.audioJsonContent = some content → content.length ≠ 0 →
      env.parseJson content = none →
      loadKnownSequencesFromSDCard env reg = (false, reg)) ∧
    (env.wifiConnected = true → isCacheStale env reg = true → env.httpCode = 200 →
      env.payload.length ≤ MAX_HTTP_RESPONSE_SIZE → env.parseJson env.payload = none →
      downloadAudio env reg = (false, reg, 1)) := by
  constructor
  · intro hsd hex content hcontent hne hparse
    unfold loadKnownSequencesFromSDCard
    rw [hsd, hex, hcontent]
    simp [hne, hparse]
  · intro hw hstale hcode hsize hparse
    unfold downloadAudio
    rw [hw, hstale, hcode]
    have hgt : ¬ env.payload.length > MAX_HTTP_RESPONSE_SIZE := by omega
    simp [hgt, hparse]

/-- C9 witness: with unparseable text both on disk and on the wire, both
operations fail and the one-record registry survives unchanged. -/
theorem registry_retained_on_parse_error_witness :
    loadKnownSequencesFromSDCard envParseFail [fileA] = (false, [fileA]) ∧
    downloadAudio envParseFail [fileA] = (false, [fileA], 1) :=
  ⟨(registry_retained_on_parse_error envParseFail [fileA]).1 rfl rfl ['x'] rfl
      (by decide) rfl,
    (registry_retained_on_parse_error envParseFail [fileA]).2 rfl (by decide) rfl
      (by decide) rfl⟩

/-- C5 counterexample: a remote locator whose final segment is 74 characters
long is silently truncated to the 63 characters that fit the bounded filename
buffer — losing its `.mp3` suffix, i.e. changing its meaning — and both
`urlToFilename` and `getLocalAudioPath` still report success instead of
failing closed. -/
theorem getLocalAudioPath_truncates_silently :
    63 < (afterLastSlash urlLongName).length ∧
    urlToFilename envTrue urlLongName = some (List.replicate 63 'a') ∧
    getLocalAudioPath envTrue urlLongName =
      some ("/audio/".data ++ List.replicate 63 'a') := by
  decide

/-- C5 (amended): the locator codec always succeeds and always composes its
output as `{audio-directory}/{identifier}` with an identifier of at most
`MAX_FILENAME_LENGTH - 1` characters, so the composed path always fits the
128-byte path buffer; identifiers that would exceed the bound are silently
truncated rather than rejected. -/
theorem getLocalAudioPath_shape (env : Env) (url : List Char) :
    ∃ f, urlToFilename env url = some f ∧ f.length ≤ MAX_FILENAME_LENGTH - 1 ∧
      getLocalAudioPath env url = some (AUDIO_FILES_DIR ++ '/' :: f) := by
  obtain ⟨f, hf, hlen⟩ := urlToFilename_some_short env url
  refine ⟨f, hf, hlen, ?_⟩
  unfold getLocalAudioPath
  rw [hf]
  have hM : MAX_FILENAME_LENGTH = 64 := rfl
  have hfit : (AUDIO_FILES_DIR ++ '/' :: f).length ≤ 127 := by
    have hdir : AUDIO_FILES_DIR.length = 6 := by decide
    simp only [List.length_append, List.length_cons]
    omega
  dsimp only
  rw [List.take_of_length_le hfit]

/-- C2 counterexample: for the audio entry `"123" ↦ https://x/audio` (no
usable filename in the locator, so the local name is hash-derived) the first
resolve enqueues a task targeting `/audio/audio_48d24969.mp3`; but once that
destination file exists, a subsequent resolve recomputes a collision-suffixed
name, misses the cache, and still returns no playable path — refuting the
claim that the resolve then returns the computed local path. -/
theorem processAudioKey_hash_named_not_cached :
    processAudioKey envTrue regHash ⟨[], 0⟩ "123".data = (none, qHash) ∧
    envHashHit.sdExists destHash = true ∧
    (processAudioKey envHashHit regHash qHash "123".data).1 = none := by
  decide

/-- C2 (amended): for a registry entry of kind audio whose remote http/https
locator carries an extension-bearing final segment (so the computed local
destination is independent of storage contents), with no file at that
destination, resolving the key returns no playable path and enqueues exactly
one task `(locator, destination, description)` — provided the locator is not
already queued and the queue has room; once the destination file exists on
storage, a subsequent resolve of the key returns the computed local path. -/
theorem processAudioKey_remote_then_cached
    (env1 env2 : Env) (reg : List AudioFile) (q : QueueState)
    (f : AudioFile) (sequence dest : List Char)
    (hfind : reg.find? (fun r => r.audioKey == sequence) = some f)
    (htype : f.type = "audio".data)
    (hremote : (beginsWith f.path "http://".data ||
      beginsWith f.path "https://".data) = true)
    (hdot : (afterLastSlash f.path).contains '.' = true)
    (hclean : sanitizeChars (afterLastSlash f.path) (MAX_FILENAME_LENGTH - 1) ≠ [])
    (hdest : dest = AUDIO_FILES_DIR ++ '/' ::
      sanitizeChars (afterLastSlash f.path) (MAX_FILENAME_LENGTH - 1))
    (hplen : f.path.length ≤ 255) (hdlen : f.description.length ≤ 63)
    (hsd1 : env1.sdOk = true) (hmiss : env1.sdExists dest = false)
    (hnew : ∀ it ∈ q.items, it.url ≠ f.path)
    (hroom : q.items.length < MAX_DOWNLOAD_QUEUE)
    (hsd2 : env2.sdOk = true) (hhit : env2.sdExists dest = true) :
    processAudioKey env1 reg q sequence =
      (none, ⟨q.items ++ [⟨f.path, dest, f.description, false⟩], q.index⟩) ∧
    ∀ q2 : QueueState, processAudioKey env2 reg q2 sequence = (some dest, q2) := by
  have hpath1 : getLocalAudioPath env1 f.path = some dest := by
    rw [hdest]; exact getLocalAudioPath_sanitized env1 f.path hdot hclean
  have hpath2 : getLocalAudioPath env2 f.path = some dest := by
    rw [hdest]; exact getLocalAudioPath_sanitized env2 f.path hdot hclean
  have hpne : f.path ≠ [] := by
    cases hb : beginsWith f.path "http://".data with
    | true => exact beginsWith_ne_nil _ _ (by decide) hb
    | false =>
      have hb2 : beginsWith f.path "https://".data = true := by
        rw [hb] at hremote; simpa using hremote
      exact beginsWith_ne_nil _ _ (by decide) hb2
  have hplen0 : ¬ f.path.length = 0 := by
    simpa [List.length_eq_zero] using hpne
  have haff1 : audioFileExists env1 f.path = false := by
    unfold audioFileExists
    rw [hsd1]
    simp [hpath1, hmiss]
  have haff2 : audioFileExists env2 f.path = true := by
    unfold audioFileExists
    rw [hsd2]
    simp [hpath2, hhit]
  have hadd : addToDownloadQueue env1 q f.path f.description =
      (true, ⟨q.items ++ [⟨f.path, dest, f.description, false⟩], q.index⟩) := by
    unfold addToDownloadQueue
    have h1 : ¬ q.items.length ≥ MAX_DOWNLOAD_QUEUE := by omega
    have hany : q.items.any (fun it => it.url == f.path) = false := by
      rw [List.any_eq_false]
      intro it hin
      simpa using hnew it hin
    rw [if_neg h1]
    simp only [hany, Bool.false_eq_true, if_false, hpath1]
    rw [List.take_of_length_le hplen, List.take_of_length_le hdlen]
  constructor
  · unfold processAudioKey
    rw [hfind]
    simp only [htype, beq_self_eq_true, if_true, hplen0, if_false, hremote,
      haff1, Bool.false_eq_true, hadd]
  · intro q2
    unfold processAudioKey
    rw [hfind]
    simp only [htype, beq_self_eq_true, if_true, hplen0, if_false, hremote,
      haff2, if_true, hpath2]

/-- C2 witness: the extension-bearing remote entry `"123" ↦ https://x/a.mp3`
resolves to `Unavailable` plus one queued task for `/audio/a.mp3`; with that
file present the same key resolves to `/audio/a.mp3`. -/
theorem processAudioKey_remote_then_cached_witness :
    processAudioKey envTrue regS ⟨[], 0⟩ "123".data =
      (none, ⟨[⟨"https://x/a.mp3".data, destS, "dd".data, false⟩], 0⟩) ∧
    processAudioKey envHitS regS ⟨[], 0⟩ "123".data = (some destS, ⟨[], 0⟩) := by
  have h := processAudioKey_remote_then_cached envTrue envHitS regS ⟨[], 0⟩
    ⟨"123".data, "dd".data, "audio".data, "https://x/a.mp3".data⟩ "123".data destS
    (by decide) (by decide) (by decide) (by decide) (by decide) (by decide)
    (by decide) (by decide) rfl rfl (by simp) (by decide) rfl (by decide)
  exact ⟨by simpa using h.1, h.2 ⟨[], 0⟩⟩

set_option maxRecDepth 100000 in
/-- C10 counterexample: two distinct locators sharing their first 255
characters defeat the duplicate scan (which compares the truncated stored
`url` field against the full incoming locator), so both are enqueued and the
stored locators at two distinct indices are equal — refuting the pairwise
distinctness invariant for over-long locators. -/
theorem downloadQueue_url_truncation_collision :
    urlLongA ≠ urlLongB ∧ qTrunc.items.length = 2 ∧
    ¬ (qTrunc.items.map (fun it => it.url)).Nodup := by
  decide

/-- C10 (amended): for locators that fit the queue's 255-character `url`
field, the queue operations preserve pairwise distinctness of the stored
locators: enqueue keeps the stored-url list duplicate-free, a locator present
anywhere in the queue (behind the cursor included) is never added again and
leaves the state unchanged, the drive step never alters the stored entries
and never moves the cursor backwards, and only `clearDownloadQueue` resets
the queue. -/
theorem downloadQueue_distinct_urls_invariant (env : Env) (q : QueueState)
    (url d : List Char) :
    (url.length ≤ 255 → (q.items.map (fun it => it.url)).Nodup →
      (((addToDownloadQueue env q url d).2).items.map (fun it => it.url)).Nodup) ∧
    (url ∈ q.items.map (fun it => it.url) → (addToDownloadQueue env q url d).2 = q) ∧
    (processDownloadQueue env q).2.items = q.items ∧
    q.index ≤ (processDownloadQueue env q).2.index ∧
    clearDownloadQueue = ⟨[], 0⟩ := by
  refine ⟨?_, ?_, ?_, ?_, rfl⟩
  · intro hlen hnd
    unfold addToDownloadQueue
    split_ifs with h1 h2
    · exact hnd
    · exact hnd
    · have hnot : url ∉ q.items.map (fun it => it.url) := by
        intro hmem
        rcases List.mem_map.mp hmem with ⟨it, hin, hurl⟩
        exact h2 (List.any_eq_true.mpr ⟨it, hin, by simp [hurl]⟩)
      cases hlp : getLocalAudioPath env url with
      | none => exact hnd
      | some lp =>
        dsimp only
        rw [List.take_of_length_le hlen]
        simp [List.nodup_append, hnd, hnot]
  · intro hmem
    rcases List.mem_map.mp hmem with ⟨it, hin, hurl⟩
    have hany : q.items.any (fun x => x.url == url) = true :=
      List.any_eq_true.mpr ⟨it, hin, by simp [hurl]⟩
    unfold addToDownloadQueue
    split_ifs with h1
    · rfl
    · rfl
  · unfold processDownloadQueue
    cases hget : q.items[q.index]? with
    | none => split_ifs <;> rfl
    | some item =>
      dsimp only
      split_ifs <;> rfl
  · unfold processDownloadQueue
    cases hget : q.items[q.index]? with
    | none => split_ifs <;> (dsimp only; omega)
    | some item =>
      dsimp only
      split_ifs <;> (dsimp only; omega)

/-- C10 witness: re-enqueuing the sole queued locator of a short-url queue
keeps the stored-url list duplicate-free and leaves the queue unchanged. -/
theorem downloadQueue_distinct_urls_invariant_witness :
    ((addToDownloadQueue envTrue qOne ['u'] []).2.items.map (fun it => it.url)).Nodup ∧
    (addToDownloadQueue envTrue qOne ['u'] []).2 = qOne :=
  ⟨(downloadQueue_distinct_urls_invariant envTrue qOne ['u'] []).1 (by decide) (by decide),
   (downloadQueue_distinct_urls_invariant envTrue qOne ['u'] []).2.1 (by decide)⟩
